import Mathlib

/-!
Shallow embedding of the discord-twitch-live-webhook worker.

The embedded code:
* `src/src/index.ts` — the Cloudflare worker: `fetch` handler, the
  `handleNotification` / `handleChallenge` / `handleRevocation` dispatch,
  `forwardNotification`, `forwardRevocation`, `fetchEventSubStreamInfo`,
  `resolveWebhookEnvs`, `resolveTimestamp`.
* the `./discord` module (present among the unnamed source files):
  `resolveWebhookOptions`, `webhookUrl`, `executeWebhook` and the
  webhook-URL pattern.

The `./twitch` module (verifyRequest, authorize, isStreamOnlineBody,
getStreams/getChannels/getUsers) is not among the repository sources; its
observable outcomes enter the embedding as oracle parameters, and the few
definitions the claims need from it are modelled from the spec, marked as
such in their doc comments.

Effectful code is embedded as pure functions returning a result in
`Except` together with a trace of observable effects (`Eff`), and the
worker handler returns the HTTP response plus the list of scheduled
background tasks.
-/

namespace TwitchLiveWebhook

/-- Errors a downstream computation can raise: JS TypeError (reading a field
of `undefined`), a failed HTTP fetch, a webhook-resolution failure, or a
token-endpoint (authorization) failure. -/
inductive Err where
  | typeError
  | fetchError
  | webhookError
  | authError
deriving DecidableEq, Repr

/-- An HTTP response as produced by `new Response(body, { status })`:
a status code and an optional body (null/undefined body means empty). -/
structure Response where
  status : Nat
  body : Option String
deriving DecidableEq, Repr

/-- The parsed webhook JSON body, with the fields the worker reads:
`subscription.type`, `subscription.status`,
`subscription.condition.broadcaster_user_id` and (for challenge bodies)
`challenge`. A missing `challenge` field is `none`. -/
structure WebhookBody where
  subscriptionType : String
  subscriptionStatus : String
  broadcasterUserId : String
  challenge : Option String
deriving DecidableEq, Repr

/-- Modelled from the spec: `isStreamOnlineBody` of the `./twitch` module
(not under src/) validates that the parsed body's subscription type is the
one supported stream-online kind. -/
def isStreamOnlineBody (b : WebhookBody) : Bool :=
  b.subscriptionType = "stream.online"

/-- Modelled from the spec: the message-type header value for an event
notification (`NotificationType.Notification` of the `./twitch` module). -/
def NotificationType.Notification : String := "notification"

/-- Modelled from the spec: the message-type header value for a challenge
handshake (`NotificationType.WebhookCallbackVerification`). -/
def NotificationType.WebhookCallbackVerification : String := "webhook_callback_verification"

/-- Modelled from the spec: the message-type header value for a
subscription revocation (`NotificationType.Revocation`). -/
def NotificationType.Revocation : String := "revocation"

/-- A background task scheduled with `ctx.waitUntil`. -/
inductive ScheduledTask where
  | forwardNotification (body : WebhookBody) (timestamp : Int)
  | forwardRevocation (body : WebhookBody)
deriving DecidableEq, Repr

/-- An inbound request as the worker observes it: the message-type header
(`request.headers.get`, `none` when absent), the message-timestamp header
already parsed to epoch milliseconds (`none` when absent), the outcome of
`verifyRequest` (from the `./twitch` module, not under src/), and the
outcome of `JSON.parse` on the body (`none` when parsing throws). -/
structure InboundRequest where
  messageType : Option String
  rawTimestamp : Option Int
  verified : Bool
  parsed : Option WebhookBody

/-- Embeds `resolveTimestamp` of `src/src/index.ts`: the timestamp header
value when present, else the receipt time `Date.now()`. (`checkAge` only
logs a warning and never alters control flow.) -/
def resolveTimestamp (req : InboundRequest) (now : Int) : Int :=
  req.rawTimestamp.getD now

/-- Embeds `handleNotification` of `src/src/index.ts`: schedule
`forwardNotification` and answer 204 with an empty body. -/
def handleNotification (body : WebhookBody) (timestamp : Int) :
    Response × List ScheduledTask :=
  (⟨204, none⟩, [ScheduledTask.forwardNotification body timestamp])

/-- Embeds `handleChallenge` of `src/src/index.ts`: answer 200 with the
body's challenge string as the response body. -/
def handleChallenge (body : WebhookBody) : Response × List ScheduledTask :=
  (⟨200, body.challenge⟩, [])

/-- Embeds `handleRevocation` of `src/src/index.ts`: schedule
`forwardRevocation` and answer 204 with an empty body. -/
def handleRevocation (body : WebhookBody) : Response × List ScheduledTask :=
  (⟨204, none⟩, [ScheduledTask.forwardRevocation body])

/-- Embeds the worker `fetch` handler of `src/src/index.ts`: verify the
signature (401 on failure), resolve the timestamp, parse the JSON body
(a parse exception is caught and yields the final 400), reject unsupported
subscription types with 403, then dispatch on the message-type header;
any unmatched header value falls through to the 400 response. -/
def fetch (req : InboundRequest) (now : Int) : Response × List ScheduledTask :=
  if req.verified = false then
    (⟨401, none⟩, [])
  else
    let timestamp := resolveTimestamp req now
    match req.parsed with
    | none => (⟨400, none⟩, [])
    | some json =>
      if isStreamOnlineBody json = false then
        (⟨403, none⟩, [])
      else if req.messageType = some NotificationType.Notification then
        handleNotification json timestamp
      else if req.messageType = some NotificationType.WebhookCallbackVerification then
        handleChallenge json
      else if req.messageType = some NotificationType.Revocation then
        handleRevocation json
      else
        (⟨400, none⟩, [])

/-- A live-stream resource as returned by the Twitch streams endpoint
(the fields `fetchEventSubStreamInfo` reads). `started_at` is the raw RFC3339
string; the source checks its truthiness, so the empty string matters. -/
structure StreamResource where
  user_id : String
  user_login : String
  user_name : String
  game_id : String
  game_name : String
  title : String
  language : String
  started_at : String
  thumbnail_url : String
deriving DecidableEq, Repr

/-- A channel resource as returned by the Twitch channels endpoint
(the fields the worker reads). -/
structure ChannelResource where
  broadcaster_id : String
  broadcaster_login : String
  broadcaster_name : String
  broadcaster_language : String
  game_id : String
  game_name : String
  title : String
  delay : Nat
deriving DecidableEq, Repr

/-- A user resource as returned by the Twitch users endpoint (the one field
the worker reads). -/
structure UserResource where
  profile_image_url : String
deriving DecidableEq, Repr

/-- Embeds the `StreamInfo` record of `src/src/index.ts`. `startedAt` holds
the raw `started_at` string handed to `new Date` (present only when a live
stream with a truthy `started_at` exists). -/
structure StreamInfo where
  userId : String
  userLogin : String
  userName : String
  userAvatarUrl : String
  gameId : String
  gameName : String
  title : String
  delay : Nat
  startedAt : Option String
  language : String
  thumbnailUrl : Option String
deriving DecidableEq, Repr

/-- Embeds the record literal at the end of `fetchEventSubStreamInfo` in
`src/src/index.ts`: field-by-field `stream?.x ?? channel.y` coalescing,
`delay` from the channel, `userAvatarUrl` from the user resource,
`startedAt` from the stream only when its `started_at` is truthy, and
`thumbnailUrl` as `stream?.thumbnail_url`. -/
def mergeStreamInfo (stream : Option StreamResource) (channel : ChannelResource)
    (user : UserResource) : StreamInfo :=
  { userId := (stream.map (·.user_id)).getD channel.broadcaster_id
    userLogin := (stream.map (·.user_login)).getD channel.broadcaster_login
    userName := (stream.map (·.user_name)).getD channel.broadcaster_name
    userAvatarUrl := user.profile_image_url
    gameId := (stream.map (·.game_id)).getD channel.game_id
    gameName := (stream.map (·.game_name)).getD channel.game_name
    title := (stream.map (·.title)).getD channel.title
    delay := channel.delay
    startedAt :=
      match stream with
      | some s => if s.started_at = "" then none else some s.started_at
      | none => none
    language := (stream.map (·.language)).getD channel.broadcaster_language
    thumbnailUrl := stream.map (·.thumbnail_url) }

/-- Embeds `fetchEventSubStreamInfo` of `src/src/index.ts`, applied to the
outcomes of the wrapped calls: `authorize` hands a token to the callback
(an authorization failure propagates), `Promise.all` rejects when any of
`getStreams`/`getChannels`/`getUsers` rejects, and destructuring the first
element of an empty `channels` or `users` collection makes the subsequent
field access throw a TypeError. A missing live stream is the normal
offline case. -/
def fetchEventSubStreamInfo (tokenRes : Except Err String)
    (streamsRes : Except Err (List StreamResource))
    (channelsRes : Except Err (List ChannelResource))
    (usersRes : Except Err (List UserResource)) : Except Err StreamInfo :=
  match tokenRes with
  | .error e => .error e
  | .ok _ =>
    match streamsRes, channelsRes, usersRes with
    | .error e, _, _ => .error e
    | _, .error e, _ => .error e
    | _, _, .error e => .error e
    | .ok streams, .ok channels, .ok users =>
      match channels.head? with
      | none => .error .typeError
      | some channel =>
        match users.head? with
        | none => .error .typeError
        | some user => .ok (mergeStreamInfo streams.head? channel user)

/-- Embeds `WebhookOptions` of the `./discord` module: the three optional
configuration fields out of which a webhook target is resolved. -/
structure WebhookOptions where
  id : Option String
  token : Option String
  url : Option String
deriving DecidableEq, Repr

/-- Embeds `WebhookData` of the `./discord` module: a resolved
(id, token) webhook target. -/
structure WebhookData where
  id : String
  token : String
deriving DecidableEq, Repr

/-- JS truthiness of an optional string: `undefined` and the empty string
are falsy, every other string is truthy. -/
def truthy : Option String → Bool
  | some s => !(s == "")
  | none => false

/-- Embeds `API_VERSION` of the `./discord` module. -/
def API_VERSION : String := "10"

/-- Embeds `API_BASE_ENDPOINT` of the `./discord` module. -/
def API_BASE_ENDPOINT : String := "https://discord.com/api/v" ++ API_VERSION

/-- Consumes a literal from a character list, comparing case-insensitively
(the webhook-URL pattern carries the `i` flag); returns the rest on
success. -/
def matchLitCI : List Char → List Char → Option (List Char)
  | [], cs => some cs
  | _ :: _, [] => none
  | l :: ls, c :: cs => if c.toLower = l.toLower then matchLitCI ls cs else none

/-- A character of the regex class `[\w-]` (ASCII word character or dash). -/
def isTokenChar (c : Char) : Bool :=
  c.isAlphanum || c = '_' || c = '-'

/-- Consumes the optional `\/v\d{1,2}` segment of the webhook-URL pattern
at the current position; `none` when the segment does not match here. -/
def matchVersionSeg (cs : List Char) : Option (List Char) :=
  match matchLitCI "/v".toList cs with
  | none => none
  | some rest =>
    let (digits, rest2) := rest.span Char.isDigit
    if digits.length = 1 || digits.length = 2 then some rest2 else none

/-- Matches the webhook-URL pattern of the `./discord` module,
`https?:\/\/(?:ptb\.|canary\.)?discord\.com\/api(?:\/v\d{1,2})?\/webhooks\/(?<id>\d{17,19})\/(?<token>[\w-]{68})`
(flag `i`), anchored at the head of the character list; returns the
captured (id, token) groups. Each optional/greedy regex construct is
deterministic here because the alternatives start with distinct
characters, so no backtracking branch can succeed where the greedy
choice fails. -/
def webhookUrlMatchAt (cs : List Char) : Option (String × String) :=
  match matchLitCI "http".toList cs with
  | none => none
  | some cs1 =>
    let cs2 := match matchLitCI "s".toList cs1 with
      | some r => r
      | none => cs1
    match matchLitCI "://".toList cs2 with
    | none => none
    | some cs3 =>
      let cs4 := match matchLitCI "ptb.".toList cs3 with
        | some r => r
        | none =>
          match matchLitCI "canary.".toList cs3 with
          | some r => r
          | none => cs3
      match matchLitCI "discord.com/api".toList cs4 with
      | none => none
      | some cs5 =>
        let cs6 := match matchVersionSeg cs5 with
          | some r => r
          | none => cs5
        match matchLitCI "/webhooks/".toList cs6 with
        | none => none
        | some cs7 =>
          let (idRun, cs8) := cs7.span Char.isDigit
          if idRun.length < 17 || 19 < idRun.length then none
          else
            match matchLitCI "/".toList cs8 with
            | none => none
            | some cs9 =>
              let tokenRun := cs9.take 68
              if tokenRun.length = 68 && tokenRun.all isTokenChar then
                some (String.mk idRun, String.mk tokenRun)
              else none

/-- Unanchored left-to-right search with the webhook-URL pattern, as
`RegExp.prototype.exec` performs it: the match at the leftmost feasible
start position wins. -/
def webhookUrlSearch : List Char → Option (String × String)
  | [] => none
  | c :: cs =>
    match webhookUrlMatchAt (c :: cs) with
    | some r => some r
    | none => webhookUrlSearch cs

/-- Embeds `WebhookUrlPattern.exec` of the `./discord` module on a string,
returning the captured id and token groups when the pattern matches. -/
def webhookUrlPatternExec (s : String) : Option WebhookData :=
  (webhookUrlSearch s.toList).map fun r => ⟨r.1, r.2⟩

/-- Embeds `resolveWebhookOptions` of the `./discord` module: when both
`id` and `token` are truthy they are returned as the target (the `url`
field is never consulted); otherwise the URL (or `""` when absent) is
matched against the webhook-URL pattern. -/
def resolveWebhookOptions (opts : WebhookOptions) : Option WebhookData :=
  if truthy opts.id && truthy opts.token then
    some ⟨opts.id.getD "", opts.token.getD ""⟩
  else
    webhookUrlPatternExec (opts.url.getD "")

/-- Embeds `webhookUrl` of the `./discord` module. -/
def webhookUrl (webhook : WebhookData) : String :=
  API_BASE_ENDPOINT ++ "/webhooks/" ++ webhook.id ++ "/" ++ webhook.token

/-- An embed of an outgoing webhook message (the fields the worker
populates). -/
structure Embed where
  title : Option String
  url : Option String
  thumbnailUrl : Option String
  description : Option String
  imageUrl : Option String
deriving DecidableEq, Repr

/-- An outgoing webhook message body (the fields the worker populates);
`embeds` is `none` when the field is omitted. -/
structure WebhookMessage where
  username : Option String
  avatar_url : Option String
  content : Option String
  embeds : Option (List Embed)
deriving DecidableEq, Repr

/-- An observable effect of the downstream (fire-and-forget) path: one of
the three Twitch read-API calls, the webhook POST, or a `console.error`
log entry. -/
inductive Eff where
  | apiGetStreams (userIds : List String)
  | apiGetChannels (ids : List String)
  | apiGetUsers (ids : List String)
  | webhookPost (url : String) (message : WebhookMessage)
  | logError
deriving DecidableEq, Repr

/-- Whether an effect is an upstream (Twitch read-API) call. -/
def Eff.isApiCall : Eff → Bool
  | .apiGetStreams _ => true
  | .apiGetChannels _ => true
  | .apiGetUsers _ => true
  | _ => false

/-- The upstream read-API calls within an effect trace. -/
def apiCalls (effs : List Eff) : List Eff :=
  effs.filter Eff.isApiCall

/-- The worker environment bindings the embedded paths read
(`Env` of `src/src/index.ts`; the Twitch credentials are absorbed into
the oracle outcomes of the `./twitch` calls). -/
structure Env where
  DISCORD_WEBHOOK_ID : Option String
  DISCORD_WEBHOOK_TOKEN : Option String
  DISCORD_WEBHOOK_URL : Option String
  DISCORD_USERNAME : Option String
  DISCORD_AVATAR_URL : Option String

/-- Embeds `resolveWebhookEnvs` of `src/src/index.ts`. -/
def resolveWebhookEnvs (env : Env) : WebhookOptions :=
  ⟨env.DISCORD_WEBHOOK_ID, env.DISCORD_WEBHOOK_TOKEN, env.DISCORD_WEBHOOK_URL⟩

/-- Embeds `executeWebhook` of the `./discord` module: resolve the target
(throwing `WebhookError` when resolution fails, before any HTTP request),
POST the message, and throw `FetchError` when the response status is not
204. `deliveryStatus` is the status the webhook endpoint answers with. -/
def executeWebhook (opts : WebhookOptions) (message : WebhookMessage)
    (deliveryStatus : Nat) : Except Err Unit × List Eff :=
  match resolveWebhookOptions opts with
  | none => (.error .webhookError, [])
  | some webhook =>
    let url := webhookUrl webhook
    if deliveryStatus = 204 then (.ok (), [.webhookPost url message])
    else (.error .fetchError, [.webhookPost url message])

/-- Outcomes of the network calls the downstream path performs, plus the
platform Date parser: the token-endpoint result (via `authorize`), the
three read-API results, the status the webhook POST is answered with, and
`epochMillis s` standing for `new Date(s).getTime()`. -/
structure DownstreamOracle where
  tokenRes : Except Err String
  streamsRes : Except Err (List StreamResource)
  channelsRes : Except Err (List ChannelResource)
  usersRes : Except Err (List UserResource)
  deliveryStatus : Nat
  epochMillis : String → Int

/-- Runs `fetchEventSubStreamInfo` with its effect trace: when `authorize`
obtains a token, `Promise.all` issues the three read-API calls
concurrently (all three requests go out even when one of them rejects);
when authorization fails, no API call is made. -/
def fetchEventSubStreamInfoEff (o : DownstreamOracle) (body : WebhookBody) :
    Except Err StreamInfo × List Eff :=
  (fetchEventSubStreamInfo o.tokenRes o.streamsRes o.channelsRes o.usersRes,
    match o.tokenRes with
    | .ok _ =>
      [Eff.apiGetStreams [body.broadcasterUserId],
       Eff.apiGetChannels [body.broadcasterUserId],
       Eff.apiGetUsers [body.broadcasterUserId]]
    | .error _ => [])

/-- Modelled from the spec: `channelUrl` of the `./twitch` module (not
under src/), the public channel page for a login. -/
def channelUrl (login : String) : String :=
  "https://twitch.tv/" ++ login

/-- Modelled from the spec: `relativeTimestamp` of the `./discord` module
(not under src/), the humanized relative-time markup for an
epoch-milliseconds instant. -/
def relativeTimestamp (ms : Int) : String :=
  "<t:" ++ toString (ms / 1000) ++ ":R>"

/-- Embeds the description template literal of `forwardNotification` in
`src/src/index.ts`. -/
def notificationDescription (o : DownstreamOracle) (info : StreamInfo)
    (timestamp : Int) : String :=
  let liveVerb := match info.startedAt with
    | some _ => "went live"
    | none => "goes live"
  let instant : Int := match info.startedAt with
    | some s => o.epochMillis s
    | none => timestamp + (info.delay : Int)
  "**" ++ info.userName ++ "** " ++ liveVerb ++ " " ++ relativeTimestamp instant
    ++ "\nPlaying **" ++ info.gameName ++ "**"

/-- Embeds the body of the `try` block of `forwardNotification` in
`src/src/index.ts`: aggregate the stream info, then execute the webhook
with the formatted message (the embed's image is present only when
`thumbnailUrl` is truthy). -/
def forwardNotificationInner (env : Env) (o : DownstreamOracle)
    (body : WebhookBody) (timestamp : Int) : Except Err Unit × List Eff :=
  match fetchEventSubStreamInfoEff o body with
  | (.error e, effs) => (.error e, effs)
  | (.ok info, effs) =>
    let message : WebhookMessage :=
      { username := env.DISCORD_USERNAME
        avatar_url := env.DISCORD_AVATAR_URL
        content := some "@everyone"
        embeds := some [{
          title := some info.title
          url := some (channelUrl info.userLogin)
          thumbnailUrl := some info.userAvatarUrl
          description := some (notificationDescription o info timestamp)
          imageUrl := match info.thumbnailUrl with
            | some s => if s = "" then none else some s
            | none => none }] }
    let (r, effs2) := executeWebhook (resolveWebhookEnvs env) message o.deliveryStatus
    (r, effs ++ effs2)

/-- Embeds `forwardNotification` of `src/src/index.ts`: the whole body is
wrapped in `try { ... } catch (err) { console.error(err) }`, so every
thrown error is caught and logged at this boundary and the promise always
resolves. -/
def forwardNotification (env : Env) (o : DownstreamOracle) (body : WebhookBody)
    (timestamp : Int) : Except Err Unit × List Eff :=
  match forwardNotificationInner env o body timestamp with
  | (.ok u, effs) => (.ok u, effs)
  | (.error _, effs) => (.ok (), effs ++ [.logError])

/-- Replaces the first occurrence of `pat` (as a character list) by `repl`
in the input, leaving the input unchanged when `pat` does not occur. -/
def replaceFirstAux (pat repl : List Char) : List Char → List Char
  | [] => if pat = [] then repl else []
  | c :: cs =>
    if (c :: cs).take pat.length = pat then repl ++ (c :: cs).drop pat.length
    else c :: replaceFirstAux pat repl cs

/-- Replaces the first occurrence of `pat` in `s` by `repl`, the semantics
of `String.prototype.replace` with a string pattern (only the first
occurrence is replaced). -/
def jsReplaceFirst (s pat repl : String) : String :=
  String.mk (replaceFirstAux pat.toList repl.toList s.toList)

/-- Embeds the message literal of `forwardRevocation` in
`src/src/index.ts`: the revocation chat message, whose content carries the
channel's display name and the subscription status with its (first)
underscore replaced by a space. -/
def revocationMessage (env : Env) (body : WebhookBody)
    (channel : ChannelResource) : WebhookMessage :=
  { username := env.DISCORD_USERNAME
    avatar_url := env.DISCORD_AVATAR_URL
    content := some ("Subscription to channel **" ++ channel.broadcaster_name
      ++ "** revoked: " ++ jsReplaceFirst body.subscriptionStatus "_" " ")
    embeds := none }

/-- Embeds the body of the `try` block of `forwardRevocation` in
`src/src/index.ts`: authorize, fetch the channel (the only read-API call
on this path), destructure its first element (TypeError when the
collection is empty), and execute the webhook with the revocation
message. -/
def forwardRevocationInner (env : Env) (o : DownstreamOracle)
    (body : WebhookBody) : Except Err Unit × List Eff :=
  match o.tokenRes with
  | .error e => (.error e, [])
  | .ok _ =>
    let effs := [Eff.apiGetChannels [body.broadcasterUserId]]
    match o.channelsRes with
    | .error e => (.error e, effs)
    | .ok channels =>
      match channels.head? with
      | none => (.error .typeError, effs)
      | some channel =>
        let (r, effs2) := executeWebhook (resolveWebhookEnvs env)
          (revocationMessage env body channel) o.deliveryStatus
        (r, effs ++ effs2)

/-- Embeds `forwardRevocation` of `src/src/index.ts`: the whole body is
wrapped in `try { ... } catch (err) { console.error(err) }`, so every
thrown error is caught and logged at this boundary and the promise always
resolves. -/
def forwardRevocation (env : Env) (o : DownstreamOracle) (body : WebhookBody) :
    Except Err Unit × List Eff :=
  match forwardRevocationInner env o body with
  | (.ok u, effs) => (.ok u, effs)
  | (.error _, effs) => (.ok (), effs ++ [.logError])

/-- Phase of one concurrent caller of the token-cache operation: not yet
invoked, awaiting an in-flight refresh, or finished with a token. -/
inductive CallerPhase where
  | start
  | waiting
  | done
deriving DecidableEq, Repr

/-- Modelled from the spec: the state of the Token Cache (`authorize` of
the `./twitch` module, not under src/) together with its concurrent
callers. `token` is the absolute expiry of the cached token (`none` when
absent), `inFlight` whether a refresh is in progress, `requestCount` how
many token-endpoint requests have been issued, and `phase` the phase of
each concurrent caller. -/
structure TokenCacheSys where
  token : Option Nat
  inFlight : Bool
  requestCount : Nat
  phase : List CallerPhase
deriving DecidableEq, Repr

/-- Whether a cached token is present and unexpired at instant `now`. -/
def tokenFresh (now : Nat) : Option Nat → Bool
  | some expiry => decide (now < expiry)
  | none => false

/-- Modelled from the spec: one interleaving step of the Token Cache with
its concurrent callers (spec, Token Cache: a fresh cached token is reused
without any network call; otherwise a caller joins an in-flight refresh,
or starts the refresh — issuing the one token-endpoint request — when
none is in flight; a completing refresh stores the token and releases
every waiter with its result). -/
inductive TokenCacheStep (now newExpiry : Nat) : TokenCacheSys → TokenCacheSys → Prop where
  | hit (s : TokenCacheSys) (i : Nat) :
      s.phase.get? i = some .start → tokenFresh now s.token = true →
      TokenCacheStep now newExpiry s { s with phase := s.phase.set i .done }
  | join (s : TokenCacheSys) (i : Nat) :
      s.phase.get? i = some .start → tokenFresh now s.token = false →
      s.inFlight = true →
      TokenCacheStep now newExpiry s { s with phase := s.phase.set i .waiting }
  | refresh (s : TokenCacheSys) (i : Nat) :
      s.phase.get? i = some .start → tokenFresh now s.token = false →
      s.inFlight = false →
      TokenCacheStep now newExpiry s
        { token := s.token, inFlight := true, requestCount := s.requestCount + 1,
          phase := s.phase.set i .waiting }
  | settle (s : TokenCacheSys) :
      s.inFlight = true →
      TokenCacheStep now newExpiry s
        { token := some newExpiry, inFlight := false, requestCount := s.requestCount,
          phase := s.phase.map fun p => if p = .waiting then .done else p }

/-- Invariant of the token-cache system: before the first request nothing
has moved; at most one request is ever issued; an in-flight refresh means
a stale cache with at least one waiter; and once a request was issued the
refresh is either still in flight or its fresh token is cached. -/
def cacheInv (now : Nat) (s : TokenCacheSys) : Prop :=
  (s.requestCount = 0 →
    s.inFlight = false ∧ tokenFresh now s.token = false ∧
      ∀ p ∈ s.phase, p = CallerPhase.start) ∧
  (s.requestCount ≠ 0 → s.requestCount = 1) ∧
  (s.inFlight = true →
    tokenFresh now s.token = false ∧ ∃ j, s.phase.get? j = some CallerPhase.waiting) ∧
  (s.requestCount ≠ 0 → s.inFlight = true ∨ tokenFresh now s.token = true)

theorem cacheInv_step (now newExpiry : Nat) (hnow : now < newExpiry)
    (s t : TokenCacheSys) (hs : cacheInv now s)
    (hst : TokenCacheStep now newExpiry s t) : cacheInv now t := by
  obtain ⟨hA, hB, hC, hD⟩ := hs
  cases hst with
  | hit i hi hfresh =>
    refine ⟨?_, hB, ?_, hD⟩
    · intro h0
      obtain ⟨_, hstale, _⟩ := hA h0
      simp [hfresh] at hstale
    · intro hifl
      obtain ⟨hstale, _⟩ := hC hifl
      simp [hfresh] at hstale
  | join i hi hstale hifl =>
    refine ⟨?_, hB, ?_, hD⟩
    · intro h0
      obtain ⟨hfl, _, _⟩ := hA h0
      simp [hifl] at hfl
    · intro _
      refine ⟨hstale, i, ?_⟩
      have hlt : i < s.phase.length := by
        rw [List.get?_eq_some] at hi
        exact hi.choose
      exact List.get?_set_eq_of_lt CallerPhase.waiting hlt
  | refresh i hi hstale hnofl =>
    have hcnt0 : s.requestCount = 0 := by
      by_contra hne
      rcases hD hne with hfl | hfr
      · simp [hnofl] at hfl
      · simp [hfr] at hstale
    refine ⟨?_, ?_, ?_, ?_⟩
    · intro h0
      simp at h0
    · intro _
      show s.requestCount + 1 = 1
      rw [hcnt0]
    · intro _
      refine ⟨hstale, i, ?_⟩
      have hlt : i < s.phase.length := by
        rw [List.get?_eq_some] at hi
        exact hi.choose
      exact List.get?_set_eq_of_lt CallerPhase.waiting hlt
    · intro _
      left
      rfl
  | settle hifl =>
    have hne : s.requestCount ≠ 0 := by
      intro h0
      obtain ⟨hfl, _, _⟩ := hA h0
      simp [hifl] at hfl
    refine ⟨fun h0 => absurd h0 hne, hB, ?_, ?_⟩
    · intro hfl
      simp at hfl
    · intro _
      right
      show tokenFresh now (some newExpiry) = true
      simpa [tokenFresh] using hnow

theorem cacheInv_reach (now newExpiry : Nat) (hnow : now < newExpiry)
    (s t : TokenCacheSys) (hs : cacheInv now s)
    (hreach : Relation.ReflTransGen (TokenCacheStep now newExpiry) s t) :
    cacheInv now t := by
  induction hreach with
  | refl => exact hs
  | tail _ hstep ih => exact cacheInv_step now newExpiry hnow _ _ ih hstep

theorem cacheStep_length (now newExpiry : Nat) (s t : TokenCacheSys)
    (hst : TokenCacheStep now newExpiry s t) : t.phase.length = s.phase.length := by
  cases hst <;> simp

theorem cacheReach_length (now newExpiry : Nat) (s t : TokenCacheSys)
    (hreach : Relation.ReflTransGen (TokenCacheStep now newExpiry) s t) :
    t.phase.length = s.phase.length := by
  induction hreach with
  | refl => rfl
  | tail _ hstep ih => rw [cacheStep_length now newExpiry _ _ hstep, ih]

/-- C1: from any state whose cached token is absent or expired, with no
refresh in flight and N ≥ 2 concurrent callers not yet served, every
interleaving of steps that serves all callers issues exactly one
token-endpoint request, and every caller completes holding the result of
that single refresh (the cached token is the fresh one it stored). -/
theorem authorize_single_flight (now newExpiry : Nat) (hnow : now < newExpiry)
    (s0 s1 : TokenCacheSys) (hn : 2 ≤ s0.phase.length)
    (hTok : tokenFresh now s0.token = false) (hFl : s0.inFlight = false)
    (hCnt : s0.requestCount = 0)
    (hPh : ∀ p ∈ s0.phase, p = CallerPhase.start)
    (hreach : Relation.ReflTransGen (TokenCacheStep now newExpiry) s0 s1)
    (hdone : ∀ p ∈ s1.phase, p = CallerPhase.done) :
    s1.requestCount = 1 ∧ tokenFresh now s1.token = true := by
  have hinv0 : cacheInv now s0 := by
    refine ⟨fun _ => ⟨hFl, hTok, hPh⟩, fun h => absurd hCnt h, ?_, fun h => absurd hCnt h⟩
    intro h
    simp [hFl] at h
  have hinv1 : cacheInv now s1 := cacheInv_reach now newExpiry hnow s0 s1 hinv0 hreach
  obtain ⟨hA, hB, hC, hD⟩ := hinv1
  have hlen : s1.phase.length = s0.phase.length :=
    cacheReach_length now newExpiry s0 s1 hreach
  have hnonempty : s1.phase ≠ [] := by
    intro hemp
    rw [hemp] at hlen
    simp at hlen
    omega
  have hne0 : s1.requestCount ≠ 0 := by
    intro h0
    obtain ⟨_, _, hstart⟩ := hA h0
    obtain ⟨p, hp⟩ := List.exists_mem_of_ne_nil s1.phase hnonempty
    have := hstart p hp
    have := hdone p hp
    simp_all
  have hnofl : s1.inFlight = false := by
    by_contra hfl
    rw [Bool.not_eq_false] at hfl
    obtain ⟨_, j, hj⟩ := hC hfl
    have hmem := List.get?_mem hj
    have := hdone _ hmem
    simp_all
  refine ⟨hB hne0, ?_⟩
  rcases hD hne0 with hfl | hfr
  · simp [hnofl] at hfl
  · exact hfr

/-- C2: when signature verification fails, the handler answers 401 with an
empty body and schedules no work, whatever the headers, timestamp and body
are (so no body parsing, classification, token acquisition, API call or
delivery happens for that request). -/
theorem fetch_unauthorized (req : InboundRequest) (now : Int)
    (h : req.verified = false) :
    fetch req now = (⟨401, none⟩, []) := by
  simp [fetch, h]

/-- Witness for C2: a concrete unverified request gets the 401 response
with no scheduled work. -/
theorem fetch_unauthorized_witness :
    fetch ⟨some "notification", none, false,
      some ⟨"stream.online", "enabled", "123", none⟩⟩ 0 = (⟨401, none⟩, []) :=
  fetch_unauthorized _ 0 rfl

/-- C3: with no live stream, the merged view has `startedAt` and
`thumbnailUrl` absent, `delay` from the channel, the avatar from the user
resource and every other field from the channel resource; with a live
stream, each fallback field takes the stream's value. -/
theorem fetchEventSubStreamInfo_merge_policy :
    (∀ (tok : String) (channel : ChannelResource) (cs : List ChannelResource)
        (user : UserResource) (us : List UserResource),
      fetchEventSubStreamInfo (.ok tok) (.ok []) (.ok (channel :: cs))
          (.ok (user :: us)) =
        .ok { userId := channel.broadcaster_id
              userLogin := channel.broadcaster_login
              userName := channel.broadcaster_name
              userAvatarUrl := user.profile_image_url
              gameId := channel.game_id
              gameName := channel.game_name
              title := channel.title
              delay := channel.delay
              startedAt := none
              language := channel.broadcaster_language
              thumbnailUrl := none }) ∧
    (∀ (tok : String) (s : StreamResource) (ss : List StreamResource)
        (channel : ChannelResource) (cs : List ChannelResource)
        (user : UserResource) (us : List UserResource),
      ∃ info,
        fetchEventSubStreamInfo (.ok tok) (.ok (s :: ss)) (.ok (channel :: cs))
            (.ok (user :: us)) = .ok info ∧
        info.userId = s.user_id ∧ info.userLogin = s.user_login ∧
        info.userName = s.user_name ∧ info.gameId = s.game_id ∧
        info.gameName = s.game_name ∧ info.title = s.title ∧
        info.language = s.language) := by
  constructor
  · intro tok channel cs user us
    rfl
  · intro tok s ss channel cs user us
    exact ⟨_, rfl, rfl, rfl, rfl, rfl, rfl, rfl, rfl⟩

/-- C4: a verified request whose body is not of the supported stream-online
subscription type is answered 403 with an empty body and no scheduled
work, for every value of the message-type header (the check precedes kind
dispatch). -/
theorem fetch_unsupported_body (req : InboundRequest) (now : Int) (b : WebhookBody)
    (h1 : req.verified = true) (h2 : req.parsed = some b)
    (h3 : isStreamOnlineBody b = false) :
    fetch req now = (⟨403, none⟩, []) := by
  simp [fetch, h1, h2, h3]

/-- Witness for C4: a concrete verified request of an unsupported
subscription type is rejected with 403 even under the
challenge-verification message-type header. -/
theorem fetch_unsupported_body_witness :
    fetch ⟨some NotificationType.WebhookCallbackVerification, none, true,
      some ⟨"channel.update", "enabled", "123", some "abc123"⟩⟩ 0 =
      (⟨403, none⟩, []) :=
  fetch_unsupported_body _ 0 _ rfl rfl rfl

/-- Counterexample to C5: a verified request with a supported body and the
unknown message-type header "bogus" is answered with the generic 400, not
with a 403 forbidden response. -/
theorem fetch_unknown_kind_counterexample :
    (fetch ⟨some "bogus", none, true,
      some ⟨"stream.online", "enabled", "123", none⟩⟩ 0).fst.status = 400 ∧
    ¬ (fetch ⟨some "bogus", none, true,
      some ⟨"stream.online", "enabled", "123", none⟩⟩ 0).fst.status = 403 := by
  decide

/-- C5 (amended): a verified request with a supported body whose
message-type header is missing or matches none of the three known kinds
falls through the dispatch switch to the generic 400 response with empty
body and no scheduled work. -/
theorem fetch_unknown_kind_400 (req : InboundRequest) (now : Int) (b : WebhookBody)
    (h1 : req.verified = true) (h2 : req.parsed = some b)
    (h3 : isStreamOnlineBody b = true)
    (h4 : req.messageType ≠ some NotificationType.Notification)
    (h5 : req.messageType ≠ some NotificationType.WebhookCallbackVerification)
    (h6 : req.messageType ≠ some NotificationType.Revocation) :
    fetch req now = (⟨400, none⟩, []) := by
  simp [fetch, h1, h2, h3, h4, h5, h6]

/-- Witness for amended C5: a concrete verified supported request with the
message-type header missing is answered 400. -/
theorem fetch_unknown_kind_400_witness :
    fetch ⟨none, none, true, some ⟨"stream.online", "enabled", "123", none⟩⟩ 0 =
      (⟨400, none⟩, []) :=
  fetch_unknown_kind_400 _ 0 _ rfl rfl rfl (by decide) (by decide) (by decide)

/-- Counterexample to C6: with a successful stream lookup and channel
lookup but an empty user collection, `fetchEventSubStreamInfo` fails with
a TypeError instead of succeeding with a missing avatar field. -/
theorem fetchEventSubStreamInfo_user_empty_counterexample :
    fetchEventSubStreamInfo (.ok "tok")
      (.ok [⟨"1", "login", "name", "g", "game", "title", "en",
        "2024-01-01T00:00:00Z", "thumb"⟩])
      (.ok [⟨"1", "login", "name", "en", "g", "game", "title", 0⟩])
      (.ok []) = .error .typeError := rfl

/-- C6 (amended): the user lookup is not best-effort: when it rejects its
error propagates and fails the whole aggregation, and when it returns an
empty collection the aggregation fails with a TypeError, even though the
stream and channel lookups succeeded. -/
theorem fetchEventSubStreamInfo_user_lookup_required (tok : String)
    (streams : List StreamResource) (channel : ChannelResource)
    (cs : List ChannelResource) (e : Err) :
    fetchEventSubStreamInfo (.ok tok) (.ok streams) (.ok (channel :: cs))
        (.error e) = .error e ∧
    fetchEventSubStreamInfo (.ok tok) (.ok streams) (.ok (channel :: cs))
        (.ok []) = .error .typeError := by
  constructor <;> rfl

/-- C8: a verified supported request under the challenge-verification
message-type header whose body carries challenge string `c` is answered
200 with body exactly `c`, and no downstream work is scheduled. -/
theorem fetch_challenge_echo (req : InboundRequest) (now : Int) (b : WebhookBody)
    (c : String)
    (h1 : req.verified = true) (h2 : req.parsed = some b)
    (h3 : isStreamOnlineBody b = true)
    (h4 : req.messageType = some NotificationType.WebhookCallbackVerification)
    (h5 : b.challenge = some c) :
    fetch req now = (⟨200, some c⟩, []) := by
  simp [fetch, handleChallenge, NotificationType.Notification,
    NotificationType.WebhookCallbackVerification, h1, h2, h3, h4, h5]

/-- Witness for C8: the concrete challenge body with challenge "abc123" is
echoed back with status 200. -/
theorem fetch_challenge_echo_witness :
    fetch ⟨some NotificationType.WebhookCallbackVerification, none, true,
      some ⟨"stream.online", "enabled", "123", some "abc123"⟩⟩ 0 =
      (⟨200, some "abc123"⟩, []) :=
  fetch_challenge_echo _ 0 _ "abc123" rfl rfl rfl rfl rfl

/-- C7: a verified request with a supported body under the notification or
revocation message-type header is answered 204 with an empty body — a
value fixed before any downstream work runs — and the scheduled
`forwardNotification`/`forwardRevocation` always resolve: every downstream
error is caught at that function's boundary and logged, never re-raised. -/
theorem fetch_accepted_fire_and_forget (req : InboundRequest) (now : Int)
    (b : WebhookBody)
    (h1 : req.verified = true) (h2 : req.parsed = some b)
    (h3 : isStreamOnlineBody b = true)
    (h4 : req.messageType = some NotificationType.Notification ∨
          req.messageType = some NotificationType.Revocation) :
    (fetch req now).fst = ⟨204, none⟩ ∧
    (∀ (env : Env) (o : DownstreamOracle) (body : WebhookBody) (ts : Int),
      (forwardNotification env o body ts).fst = .ok () ∧
      (forwardRevocation env o body).fst = .ok ()) ∧
    (∀ (env : Env) (o : DownstreamOracle) (body : WebhookBody) (ts : Int)
        (e : Err) (effs : List Eff),
      (forwardNotificationInner env o body ts = (.error e, effs) →
        forwardNotification env o body ts = (.ok (), effs ++ [Eff.logError])) ∧
      (forwardRevocationInner env o body = (.error e, effs) →
        forwardRevocation env o body = (.ok (), effs ++ [Eff.logError]))) := by
  refine ⟨?_, ?_, ?_⟩
  · rcases h4 with h4 | h4 <;>
      simp [fetch, handleNotification, handleRevocation,
        NotificationType.Notification, NotificationType.WebhookCallbackVerification,
        NotificationType.Revocation, h1, h2, h3, h4]
  · intro env o body ts
    constructor
    · rcases hx : forwardNotificationInner env o body ts with ⟨r, effs⟩
      cases r <;> simp [forwardNotification, hx]
    · rcases hx : forwardRevocationInner env o body with ⟨r, effs⟩
      cases r <;> simp [forwardRevocation, hx]
  · intro env o body ts e effs
    constructor
    · intro hx
      simp [forwardNotification, hx]
    · intro hx
      simp [forwardRevocation, hx]

/-- Witness for C7: a concrete verified notification request is answered
204, and a concrete failing downstream run (authorization error) resolves
with only a log entry. -/
theorem fetch_accepted_fire_and_forget_witness :
    (fetch ⟨some NotificationType.Notification, none, true,
      some ⟨"stream.online", "enabled", "123", none⟩⟩ 0).fst = ⟨204, none⟩ ∧
    (forwardRevocation ⟨none, none, none, none, none⟩
      ⟨.error .authError, .ok [], .ok [], .ok [], 204, fun _ => 0⟩
      ⟨"stream.online", "user_removed", "123", none⟩).fst = .ok () :=
  ⟨(fetch_accepted_fire_and_forget
      ⟨some NotificationType.Notification, none, true,
        some ⟨"stream.online", "enabled", "123", none⟩⟩ 0
      ⟨"stream.online", "enabled", "123", none⟩ rfl rfl rfl (Or.inl rfl)).1,
   ((fetch_accepted_fire_and_forget
      ⟨some NotificationType.Notification, none, true,
        some ⟨"stream.online", "enabled", "123", none⟩⟩ 0
      ⟨"stream.online", "enabled", "123", none⟩ rfl rfl rfl (Or.inl rfl)).2.1
      ⟨none, none, none, none, none⟩
      ⟨.error .authError, .ok [], .ok [], .ok [], 204, fun _ => 0⟩
      ⟨"stream.online", "user_removed", "123", none⟩ 0).2⟩

/-- C9: on the revocation path the only upstream read-API call is the
channel lookup for the body's broadcaster (never a stream or user lookup),
and every chat message posted on that path has as content the channel's
display name and the subscription status with its underscore replaced by
a space. -/
theorem forwardRevocation_channel_only_and_message (env : Env)
    (o : DownstreamOracle) (body : WebhookBody) :
    (∀ e ∈ apiCalls (forwardRevocation env o body).snd,
      e = Eff.apiGetChannels [body.broadcasterUserId]) ∧
    (∀ (url : String) (msg : WebhookMessage),
      Eff.webhookPost url msg ∈ (forwardRevocation env o body).snd →
      ∃ channel cs, o.channelsRes = .ok (channel :: cs) ∧
        msg.content = some ("Subscription to channel **"
          ++ channel.broadcaster_name ++ "** revoked: "
          ++ jsReplaceFirst body.subscriptionStatus "_" " ")) := by
  have hmain : (∀ e ∈ (forwardRevocationInner env o body).snd,
      e = Eff.apiGetChannels [body.broadcasterUserId] ∨
      (∃ url channel cs, o.channelsRes = .ok (channel :: cs) ∧
        e = Eff.webhookPost url (revocationMessage env body channel))) := by
    rcases htok : o.tokenRes with e | tok
    · simp [forwardRevocationInner, htok]
    · rcases hch : o.channelsRes with e | channels
      · simp [forwardRevocationInner, htok, hch]
      · cases channels with
        | nil => simp [forwardRevocationInner, htok, hch]
        | cons ch cs =>
          rcases hrw : resolveWebhookOptions (resolveWebhookEnvs env) with _ | w
          · simp [forwardRevocationInner, executeWebhook, htok, hch, hrw]
          · by_cases hst : o.deliveryStatus = 204 <;>
              simp [forwardRevocationInner, executeWebhook, htok, hch, hrw, hst]
  have hout : ∀ e ∈ (forwardRevocation env o body).snd,
      e ∈ (forwardRevocationInner env o body).snd ∨ e = Eff.logError := by
    rcases hx : forwardRevocationInner env o body with ⟨r, effs⟩
    cases r <;> simp [forwardRevocation, hx] <;> tauto
  constructor
  · intro e he
    have hmem := List.mem_of_mem_filter he
    have hfil := List.of_mem_filter he
    rcases hout e hmem with hin | hlog
    · rcases hmain e hin with h | ⟨url, channel, cs, _, h⟩
      · exact h
      · rw [h] at hfil
        simp [Eff.isApiCall] at hfil
    · rw [hlog] at hfil
      simp [Eff.isApiCall] at hfil
  · intro url msg hmem
    rcases hout _ hmem with hin | hlog
    · rcases hmain _ hin with h | ⟨url2, channel, cs, hok, h⟩
      · cases h
      · refine ⟨channel, cs, hok, ?_⟩
        cases h
        rfl
    · cases hlog

/-- Witness for C9: a concrete successful revocation run posts the message
"Subscription to channel **Streamer** revoked: user removed". -/
theorem forwardRevocation_channel_only_and_message_witness :
    ∃ (channel : ChannelResource) (cs : List ChannelResource),
      (Except.ok [(⟨"123", "login", "Streamer", "en", "g", "game", "title", 0⟩ :
          ChannelResource)] : Except Err (List ChannelResource)) =
        .ok (channel :: cs) ∧
      ({ username := none, avatar_url := none,
         content := some "Subscription to channel **Streamer** revoked: user removed",
         embeds := none } : WebhookMessage).content =
        some ("Subscription to channel **" ++ channel.broadcaster_name
          ++ "** revoked: "
          ++ jsReplaceFirst "user_removed" "_" " ") :=
  (forwardRevocation_channel_only_and_message
    ⟨some "1", some "t", none, none, none⟩
    ⟨.ok "tok", .ok [], .ok [⟨"123", "login", "Streamer", "en", "g", "game", "title", 0⟩],
      .ok [], 204, fun _ => 0⟩
    ⟨"stream.online", "user_removed", "123", none⟩).2
    ("https://discord.com/api/v10/webhooks/1/t")
    { username := none, avatar_url := none,
      content := some "Subscription to channel **Streamer** revoked: user removed",
      embeds := none }
    (by decide)

/-- C10: an explicit truthy (id, token) pair takes precedence and the url
field is never consulted; only when the pair is not truthy is the URL
pattern-parsed; and when resolution yields no target, `executeWebhook`
throws the webhook error before issuing any HTTP request. -/
theorem resolveWebhookOptions_precedence (idStr tokStr : String)
    (hid : idStr ≠ "") (htok : tokStr ≠ "") :
    (∀ url : Option String,
      resolveWebhookOptions ⟨some idStr, some tokStr, url⟩ = some ⟨idStr, tokStr⟩) ∧
    (∀ opts : WebhookOptions, (truthy opts.id && truthy opts.token) = false →
      resolveWebhookOptions opts = webhookUrlPatternExec (opts.url.getD "")) ∧
    (∀ (opts : WebhookOptions) (msg : WebhookMessage) (status : Nat),
      resolveWebhookOptions opts = none →
      executeWebhook opts msg status = (.error .webhookError, [])) := by
  refine ⟨?_, ?_, ?_⟩
  · intro url
    simp [resolveWebhookOptions, truthy, hid, htok]
  · intro opts h
    simp [resolveWebhookOptions, h]
  · intro opts msg status h
    simp [executeWebhook, h]

/-- Witness for C10: a concrete truthy pair wins over a nonsense URL, and a
concrete unresolvable options record makes `executeWebhook` fail with the
webhook error and an empty effect trace. -/
theorem resolveWebhookOptions_precedence_witness :
    resolveWebhookOptions ⟨some "a", some "b", some "nonsense"⟩ = some ⟨"a", "b"⟩ ∧
    executeWebhook ⟨none, none, none⟩ ⟨none, none, some "m", none⟩ 204 =
      (.error .webhookError, []) :=
  ⟨(resolveWebhookOptions_precedence "a" "b" (by decide) (by decide)).1 (some "nonsense"),
   (resolveWebhookOptions_precedence "a" "b" (by decide) (by decide)).2.2
      ⟨none, none, none⟩ ⟨none, none, some "m", none⟩ 204 (by decide)⟩

/-- An empty stale cache with two callers about to invoke concurrently. -/
def cacheSysInit : TokenCacheSys :=
  ⟨none, false, 0, [CallerPhase.start, CallerPhase.start]⟩

/-- The state after caller 0 started the one refresh, caller 1 joined it,
and the refresh settled, releasing both. -/
def cacheSysFinal : TokenCacheSys :=
  ⟨some 1, false, 1, [CallerPhase.done, CallerPhase.done]⟩

/-- Witness for C1: with two concurrent callers, a stale empty cache, and
the interleaving "caller 0 starts the refresh, caller 1 joins it, the
refresh settles", the final state has exactly one issued token request and
the fresh token cached. -/
theorem authorize_single_flight_witness :
    cacheSysFinal.requestCount = 1 ∧ tokenFresh 0 cacheSysFinal.token = true :=
  authorize_single_flight 0 1 (by decide) cacheSysInit cacheSysFinal
    (by decide) rfl rfl rfl (by decide)
    (Relation.ReflTransGen.head (TokenCacheStep.refresh cacheSysInit 0 rfl rfl rfl)
      (Relation.ReflTransGen.head (TokenCacheStep.join _ 1 rfl rfl rfl)
        (Relation.ReflTransGen.head (TokenCacheStep.settle _ rfl)
          Relation.ReflTransGen.refl)))
    (by decide)

end TwitchLiveWebhook
